import Mathlib

/-!
Verification development for the remote command execution subsystem of the
`optima-ops` repository (crate `optima-ops-core`, file `src/ssh.rs`).

The Rust source is shallowly embedded:
* strings are Lean `String`s, with the character-level operations
  (substring containment, ASCII lower-casing, trimming, literal
  `str::replace`, `split`) spelled out over `List Char` so that every
  theorem can be settled by evaluation;
* the policy engine `validate_command` is a pure function, translated
  clause by clause from the source (note: the source calls
  `String::replace`, which replaces a *literal* substring, with a
  regex-looking pattern — the embedding reproduces that literal
  semantics faithfully);
* the SSH session manager (`connect` / `disconnect` / `execute_command`)
  is embedded as explicit state passing over a `SSHClient` record, with
  all fallible transport primitives supplied by a `Transport` oracle and
  every attempted network operation recorded in a `NetOp` trace.
-/

namespace OptimaOps

/-! ## Character/string primitives (semantics of the Rust `str` methods used) -/

/-- `pat.isPrefixOf l` at every suffix: Rust `str::contains` (substring test). -/
def listContainsSub (pat : List Char) : List Char → Bool
  | [] => pat.isEmpty
  | c :: rest => pat.isPrefixOf (c :: rest) || listContainsSub pat rest

/-- Rust `str::contains(pat)` where `pat` is a plain substring. -/
def strContains (s pat : String) : Bool :=
  listContainsSub pat.toList s.toList

/-- Rust `str::starts_with(pat)`. -/
def strStartsWith (s pat : String) : Bool :=
  pat.toList.isPrefixOf s.toList

/-- Rust `str::to_lowercase` restricted to ASCII (every command and every
whitelist/blacklist token in the source is ASCII, where the two coincide). -/
def asciiLower (s : String) : String :=
  String.mk (s.toList.map Char.toLower)

/-- Rust `str::trim`: whitespace stripped from both ends (ASCII whitespace;
the source trims Unicode whitespace, which coincides on ASCII input). -/
def strTrim (s : String) : String :=
  String.mk (((s.toList.dropWhile Char.isWhitespace).reverse.dropWhile Char.isWhitespace).reverse)

/-- Rust `str::replace` on character lists: scan left to right, replace
each leftmost non-overlapping occurrence of `pat`.  (The source only ever
calls this with non-empty patterns; the empty pattern is treated as
matching nowhere.)  Structural recursion on a fuel argument: one unit of
fuel is spent per emitted position, and every recursive call strictly
shrinks the list, so any fuel at least the list's length gives the same
answer (`replaceCharsAux_fuel`). -/
def replaceCharsAux (pat repl : List Char) : Nat → List Char → List Char
  | _, [] => []
  | 0, c :: rest => c :: rest
  | fuel + 1, c :: rest =>
    if pat ≠ [] ∧ pat.isPrefixOf (c :: rest) then
      repl ++ replaceCharsAux pat repl fuel ((c :: rest).drop pat.length)
    else
      c :: replaceCharsAux pat repl fuel rest

/-- Any sufficient fuel computes the same replacement, so `replaceChars`
below (which starts with fuel equal to the list's length) is the fuel-free
left-to-right replacement. -/
theorem replaceCharsAux_fuel (pat repl : List Char) :
    ∀ fuel₁ fuel₂ l, l.length ≤ fuel₁ → l.length ≤ fuel₂ →
      replaceCharsAux pat repl fuel₁ l = replaceCharsAux pat repl fuel₂ l := by
  intro fuel₁
  induction fuel₁ with
  | zero =>
    intro fuel₂ l h₁ _
    have : l = [] := List.length_eq_zero.mp (Nat.le_zero.mp h₁)
    subst this
    cases fuel₂ <;> rfl
  | succ f₁ ih =>
    intro fuel₂ l h₁ h₂
    cases l with
    | nil => cases fuel₂ <;> rfl
    | cons c rest =>
      cases fuel₂ with
      | zero => simp at h₂
      | succ f₂ =>
        simp only [replaceCharsAux]
        by_cases hcond : pat ≠ [] ∧ pat.isPrefixOf (c :: rest)
        · simp only [if_pos hcond]
          have hp : 0 < pat.length := List.length_pos.mpr hcond.1
          have hlen : ((c :: rest).drop pat.length).length ≤ f₁ := by
            simp only [List.length_drop, List.length_cons] at *
            omega
          have hlen₂ : ((c :: rest).drop pat.length).length ≤ f₂ := by
            simp only [List.length_drop, List.length_cons] at *
            omega
          rw [ih f₂ _ hlen hlen₂]
        · simp only [if_neg hcond]
          have hlen : rest.length ≤ f₁ := by
            simp only [List.length_cons] at h₁; omega
          have hlen₂ : rest.length ≤ f₂ := by
            simp only [List.length_cons] at h₂; omega
          rw [ih f₂ _ hlen hlen₂]

/-- Rust `str::replace` on character lists, fuelled by the list's length. -/
def replaceChars (pat repl l : List Char) : List Char :=
  replaceCharsAux pat repl l.length l

/-- Rust `String::replace(pat, repl)` with a literal (non-regex) pattern. -/
def strReplace (s pat repl : String) : String :=
  String.mk (replaceChars pat.toList repl.toList s.toList)

/-! ## Command whitelist / blacklist (verbatim from `ssh.rs`) -/

def READONLY_COMMANDS : List String :=
  ["docker ps", "docker logs", "docker inspect", "docker stats",
   "docker network", "docker images", "docker exec",
   "ip ", "ip-", "df -h", "df -BG", "free -h", "free -m",
   "systemctl status", "systemctl show", "systemctl list-units",
   "journalctl", "cat", "grep", "ls", "find", "tail", "head", "echo",
   "pwd", "whoami", "uptime", "date", "wc", "curl", "ec2-metadata", "cut"]

def LOWRISK_COMMANDS : List String :=
  ["docker-compose restart", "docker restart", "systemctl restart"]

def DANGEROUS_COMMANDS : List String :=
  ["rm ", "docker rm", "docker system prune", "docker volume rm",
   "kill ", "shutdown", "reboot", "poweroff",
   " > ", " >> ", ";", "&&", "||"]

/-! ## Policy engine -/

/-- Result of command validation (`pub struct CommandValidation`). -/
structure CommandValidation where
  safe : Bool
  reason : Option String
  deriving DecidableEq

/-- The single-quote character, U+0027. -/
def squoteChar : Char := Char.ofNat 39

/-- The first argument the source passes to `String::replace`: the literal
seven-character text `"[^"]*"` (a regex-looking pattern that `replace`
treats as a plain substring). -/
def dquotePat : String := String.mk ['"', '[', '^', '"', ']', '*', '"']

/-- The second literal pattern, the seven-character text `'[^']*'`. -/
def squotePat : String :=
  String.mk [squoteChar, '[', '^', squoteChar, ']', '*', squoteChar]

/-- `pub fn validate_command(command: &str) -> CommandValidation`, clause by
clause from `ssh.rs`: dangerous-substring scan over the trimmed, lower-cased
command; then the pipe check on the original command after the two literal
`String::replace` calls; then the read-only and low-risk prefix whitelists. -/
def validate_command (command : String) : CommandValidation :=
  let cmd_lower := asciiLower (strTrim command)
  match DANGEROUS_COMMANDS.find? (fun dangerous => strContains cmd_lower dangerous) with
  | some dangerous =>
      { safe := false, reason := some ("命令包含危险操作: " ++ dangerous) }
  | none =>
      let outside_quotes := strReplace (strReplace command dquotePat "") squotePat ""
      if strContains outside_quotes "|" then
        { safe := false, reason := some "命令包含危险操作: |" }
      else if READONLY_COMMANDS.any (fun readonly => strStartsWith cmd_lower readonly) then
        { safe := true, reason := none }
      else if LOWRISK_COMMANDS.any (fun lowrisk => strStartsWith cmd_lower lowrisk) then
        { safe := true, reason := none }
      else
        { safe := false, reason := some "命令未在白名单中" }

/-! ## Error type (`error.rs`, `pub enum OpsCLIError`)

Foreign payloads (`std::io::Error`, `reqwest::Error`, `anyhow::Error`) are
modelled by their display strings.  The source `IO` variant is named
`IOError` here because Lean reserves the name `IO`. -/

inductive OpsCLIError where
  | SSHConnection (msg : String)
  | CommandExecution (msg : String)
  | Configuration (msg : String)
  | AWS (msg : String)
  | Validation (msg : String)
  | IOError (msg : String)
  | HTTP (msg : String)
  | General (msg : String)
  deriving DecidableEq

/-! ## SSH session manager (`ssh.rs`, `impl SSHClient`)

The ssh2 transport is replaced by an oracle (`Transport`) fixing the
outcome of every fallible primitive the source calls, and every attempted
network operation is recorded in a trace of `NetOp`s.  `SSHClient` keeps
the one piece of mutable state the source has (`session: Option<Session>`)
plus the target host used in connection error messages; the immutable
`env`/`config` fields are read-only configuration and are not modelled
beyond the oracle's `keyR` (the result of `get_ssh_private_key`). -/

/-- Network operations the client can attempt, in source order. -/
inductive NetOp where
  | tcpConnect
  | sshHandshake
  | sshAuth
  | chanOpen
  | chanExec
  | chanReadStdout
  | chanReadStderr
  | chanWaitClose
  | chanExitStatus
  | sshDisconnect
  deriving DecidableEq

/-- Oracle fixing the outcome of each fallible primitive of one run:
`Except.error e` means the primitive fails with underlying cause `e`. -/
structure Transport where
  keyR : Except OpsCLIError String
  tcpR : Except String Unit
  setTimeoutR : Except String Unit
  sessNewR : Except String Unit
  handshakeR : Except String Unit
  authR : Except String Unit
  authenticated : Bool
  chanR : Except String Unit
  execR : Except String Unit
  stdoutR : Except String String
  stderrR : Except String String
  closeR : Except String Unit
  exitR : Except String Int
  disconnectR : Except String Unit

/-- `pub struct SSHCommandResult`.  Wall-clock `execution_time` is real
time, not modelled: it is fixed at `0`. -/
structure SSHCommandResult where
  stdout : String
  stderr : String
  exit_code : Int
  command : String
  execution_time : Nat
  deriving DecidableEq

/-- `pub struct SSHClient`: the mutable `session: Option<Session>` plus the
target host (from the read-only EC2 config) used in error messages. -/
structure SSHClient where
  session : Option Unit
  host : String
  deriving DecidableEq

/-- `SSHClient::new`: starts with no session. -/
def SSHClient.new (host : String) : SSHClient :=
  { session := none, host := host }

/-- The connection sequence of `SSHClient::connect` once the client is known
to be disconnected: key lookup, TCP connect, read-timeout, `Session::new`,
handshake, public-key auth, and the explicit `authenticated()` check, each
aborting with an `SSHConnection` error exactly as in the source.  Returns
the outcome together with the network operations attempted. -/
def connectFresh (t : Transport) (host : String) :
    Except OpsCLIError Unit × List NetOp :=
  match t.keyR with
  | .error e => (.error e, [])
  | .ok _private_key =>
    match t.tcpR with
    | .error e => (.error (.SSHConnection ("无法连接到 " ++ host ++ ": " ++ e)), [.tcpConnect])
    | .ok _ =>
      match t.setTimeoutR with
      | .error e => (.error (.SSHConnection ("设置超时失败: " ++ e)), [.tcpConnect])
      | .ok _ =>
        match t.sessNewR with
        | .error e => (.error (.SSHConnection ("创建 SSH session 失败: " ++ e)), [.tcpConnect])
        | .ok _ =>
          match t.handshakeR with
          | .error e => (.error (.SSHConnection ("SSH 握手失败: " ++ e)), [.tcpConnect, .sshHandshake])
          | .ok _ =>
            match t.authR with
            | .error e => (.error (.SSHConnection ("SSH 认证失败: " ++ e)), [.tcpConnect, .sshHandshake, .sshAuth])
            | .ok _ =>
              if t.authenticated then
                (.ok (), [.tcpConnect, .sshHandshake, .sshAuth])
              else
                (.error (.SSHConnection "SSH 认证失败"), [.tcpConnect, .sshHandshake, .sshAuth])

/-- `SSHClient::connect`: immediate `Ok` if a session already exists
(`if self.session.is_some() { return Ok(()); }`); otherwise run the
connection sequence, storing the session only on success. -/
def connect (t : Transport) (c : SSHClient) :
    Except OpsCLIError Unit × SSHClient × List NetOp :=
  if c.session.isSome then (.ok (), c, [])
  else
    match connectFresh t c.host with
    | (.ok _, ops) => (.ok (), { c with session := some () }, ops)
    | (.error e, ops) => (.error e, c, ops)

/-- `SSHClient::disconnect`: if a session exists, attempt a graceful close
whose result is discarded (`let _ = sess.disconnect(...)`); in every case
set `session` to `None`.  Total: there is no panicking path. -/
def disconnect (t : Transport) (c : SSHClient) : SSHClient × List NetOp :=
  match c.session with
  | some _ =>
      let _closeResult := t.disconnectR
      ({ c with session := none }, [NetOp.sshDisconnect])
  | none => ({ c with session := none }, [])

/-- The channel phase of `execute_command`: open an exec channel, run the
command, read stdout and stderr, wait for close, fetch the exit status —
each step aborting with a `CommandExecution` error as in the source.  This
phase never touches `self.session`, so it is a state-free function. -/
def runChannel (t : Transport) (command : String) :
    Except OpsCLIError SSHCommandResult × List NetOp :=
  match t.chanR with
  | .error e => (.error (.CommandExecution ("创建 channel 失败: " ++ e)), [.chanOpen])
  | .ok _ =>
    match t.execR with
    | .error e => (.error (.CommandExecution ("执行命令失败: " ++ e)), [.chanOpen, .chanExec])
    | .ok _ =>
      match t.stdoutR with
      | .error e => (.error (.CommandExecution ("读取 stdout 失败: " ++ e)), [.chanOpen, .chanExec, .chanReadStdout])
      | .ok stdout =>
        match t.stderrR with
        | .error e => (.error (.CommandExecution ("读取 stderr 失败: " ++ e)), [.chanOpen, .chanExec, .chanReadStdout, .chanReadStderr])
        | .ok stderr =>
          match t.closeR with
          | .error e => (.error (.CommandExecution ("等待关闭失败: " ++ e)), [.chanOpen, .chanExec, .chanReadStdout, .chanReadStderr, .chanWaitClose])
          | .ok _ =>
            match t.exitR with
            | .error e => (.error (.CommandExecution ("获取退出码失败: " ++ e)), [.chanOpen, .chanExec, .chanReadStdout, .chanReadStderr, .chanWaitClose, .chanExitStatus])
            | .ok exit_code =>
              (.ok { stdout := stdout, stderr := stderr, exit_code := exit_code,
                     command := command, execution_time := 0 },
               [.chanOpen, .chanExec, .chanReadStdout, .chanReadStderr, .chanWaitClose, .chanExitStatus])

/-- `SSHClient::execute_command(command, validate_safety, _timeout)`.
Exactly as in the source: when `validate_safety` is set, an unsafe verdict
aborts with a `CommandExecution` error wrapping the validation reason,
before any connection or channel work; then `connect` runs only when no
session exists (`if self.session.is_none()`), propagating its error; then
the channel phase runs.  The `_timeout` parameter is declared but never
read by the source (`_timeout: Option<Duration>`), which the embedding
reproduces. -/
def execute_command (t : Transport) (c : SSHClient) (command : String)
    (validate_safety : Bool) ( _timeout : Option Nat) :
    Except OpsCLIError SSHCommandResult × SSHClient × List NetOp :=
  let validation := validate_command command
  if validate_safety && !validation.safe then
    (.error (.CommandExecution ("命令被安全策略阻止: " ++ validation.reason.getD "")), c, [])
  else
    let conn := if c.session.isNone then connect t c else (.ok (), c, [])
    match conn.1 with
    | .error e => (.error e, conn.2.1, conn.2.2)
    | .ok _ =>
      let run := runChannel t command
      (run.1, conn.2.1, conn.2.2 ++ run.2)

/-! ## Result parser (`ssh.rs`, `parse_container_status`) -/

/-- `pub struct ContainerStatus`. -/
structure ContainerStatus where
  id : String
  name : String
  status : String
  ports : String
  deriving DecidableEq

/-- Split a character list at every occurrence of `sep` (Rust
`str::split(sep)` for a single-character separator: empty pieces kept,
empty input gives one empty piece). -/
def splitChars (sep : Char) : List Char → List (List Char)
  | [] => [[]]
  | c :: rest =>
    if c = sep then [] :: splitChars sep rest
    else
      match splitChars sep rest with
      | [] => [[c]]
      | g :: gs => (c :: g) :: gs

/-- Rust `str::split` on one character, as `String`s. -/
def strSplit (sep : Char) (s : String) : List String :=
  (splitChars sep s.toList).map String.mk

/-- Rust `str::lines` on character lists: split at every `\n`; a piece
that was followed by a `\n` loses one trailing `\r` (the `\r\n` ending);
the final piece, which had no `\n`, is kept as-is unless it is empty
(optional final line ending). -/
def rustLinesChars (s : List Char) : List (List Char) :=
  let pieces := splitChars (Char.ofNat 10) s
  let lastPiece := pieces.getLast?.getD []
  pieces.dropLast.map
      (fun line => if line.getLast? = some (Char.ofNat 13) then line.dropLast else line)
    ++ (if lastPiece.isEmpty then [] else [lastPiece])

/-- Rust `str::lines`, as `String`s. -/
def rustLines (s : String) : List String :=
  (rustLinesChars s.toList).map String.mk

/-- Rust `str::is_empty`. -/
def strIsEmpty (s : String) : Bool :=
  s.toList.isEmpty

/-- `pub fn parse_container_status(output: &str) -> Vec<ContainerStatus>`:
drop whitespace-only lines, split each remaining line on tab, keep a line
only when it has at least 3 fields, with the 4th field (or `""`) as the
ports text — exactly the source's `filter`/`filter_map` chain. -/
def parse_container_status (output : String) : List ContainerStatus :=
  ((rustLines output).filter (fun line => !strIsEmpty (strTrim line))).filterMap
    (fun line =>
      let parts := strSplit (Char.ofNat 9) line
      if parts.length ≥ 3 then
        some { id := parts.getD 0 "", name := parts.getD 1 "",
               status := parts.getD 2 "", ports := ((parts.get? 3).getD "") }
      else
        none)

/-- Modelled from the spec: the §4.3 contract
`parse_inventory(raw) -> list<ContainerRecord>`, written from the spec's
words — split into lines, drop blank/whitespace-only lines, split on the
tab character, a line contributes a record only with at least 3 fields
(id, name, status), the 4th field if present becomes the port-mapping text
and otherwise defaults to the empty string, shorter lines are silently
dropped.  Used only to compare against `parse_container_status`. -/
def parse_inventory_spec (raw : String) : List ContainerStatus :=
  (rustLines raw).filterMap
    (fun line =>
      if strIsEmpty (strTrim line) then none
      else
        let fields := strSplit (Char.ofNat 9) line
        if 3 ≤ fields.length then
          some { id := fields.getD 0 "", name := fields.getD 1 "",
                 status := fields.getD 2 "", ports := (fields.get? 3).getD "" }
        else
          none)

/-! ## Concrete transports and clients used as test doubles -/

/-- Transport double on which every primitive succeeds. -/
def tOK : Transport :=
  { keyR := .ok "KEY", tcpR := .ok (), setTimeoutR := .ok (),
    sessNewR := .ok (), handshakeR := .ok (), authR := .ok (),
    authenticated := true, chanR := .ok (), execR := .ok (),
    stdoutR := .ok "out", stderrR := .ok "", closeR := .ok (),
    exitR := .ok 0, disconnectR := .ok () }

/-- Transport double whose TCP connect is refused. -/
def tTcpFail : Transport := { tOK with tcpR := .error "refused" }

/-- Transport double whose channel open fails after a good connection. -/
def tChanFail : Transport := { tOK with chanR := .error "boom" }

/-- A client that has never connected. -/
def cDis : SSHClient := SSHClient.new "h"

/-- A client holding a live session. -/
def cConn : SSHClient := { session := some (), host := "h" }

deriving instance DecidableEq for Except

/-- The error kind (constructor tag) of an `OpsCLIError`, abstracting away
the message: two errors are "the same kind" exactly when their tags
agree. -/
def errCtor : OpsCLIError → Nat
  | .SSHConnection _ => 0
  | .CommandExecution _ => 1
  | .Configuration _ => 2
  | .AWS _ => 3
  | .Validation _ => 4
  | .IOError _ => 5
  | .HTTP _ => 6
  | .General _ => 7

/-! ## Helper lemmas -/

/-- A `connect` on an already-connected client is an immediate success
with no state change and no network operations. -/
theorem connect_connected_noop (t : Transport) (c : SSHClient)
    (h : c.session.isSome = true) : connect t c = (.ok (), c, []) := by
  simp [connect, h]

/-- A successful `connect` leaves a session stored. -/
theorem connect_ok_session (t : Transport) (c : SSHClient)
    (h : (connect t c).1 = .ok ()) : (connect t c).2.1.session = some () := by
  unfold connect at h ⊢
  by_cases hc : c.session.isSome
  · simp only [if_pos hc] at h ⊢
    obtain ⟨u, hu⟩ := Option.isSome_iff_exists.mp hc
    cases u
    simpa using hu
  · simp only [if_neg hc] at h ⊢
    rcases hcf : connectFresh t c.host with ⟨r, ops⟩
    rw [hcf] at h
    cases r with
    | error e => exact Except.noConfusion h
    | ok _ => rfl

/-- Filtering before `filterMap` is `filterMap` with the predicate folded
into the mapped function. -/
theorem filter_filterMap_eq {α β : Type} (p : α → Bool) (f : α → Option β) (l : List α) :
    (l.filter p).filterMap f = l.filterMap (fun a => if p a then f a else none) := by
  induction l with
  | nil => rfl
  | cons a l ih =>
    by_cases h : p a <;> simp [List.filter_cons, List.filterMap_cons, h, ih]

/-! ## Theorems -/

/-- Claim C1.  The claim is refuted by the code: the source's "remove
quoted substrings" step is `String::replace` with the *literal* pattern
`"[^"]*"`, which occurs in no ordinary command, so the replacement is a
no-op and a pipe inside matched double quotes is still seen.  The command
`grep "a|b"` has its sole `|` inside matched double quotes, starts with
the whitelisted prefix `grep`, and contains no dangerous token, yet
`validate_command` rejects it with the pipe reason; the second conjunct
exhibits the root cause (the quote-stripping pass leaves the command
unchanged). -/
theorem C1_quoted_pipe_rejected_by_code :
    validate_command "grep \"a|b\"" =
      { safe := false, reason := some "命令包含危险操作: |" } ∧
    strReplace (strReplace "grep \"a|b\"" dquotePat "") squotePat "" = "grep \"a|b\"" := by
  constructor <;> decide

/-- Claim C2: any command whose trimmed, lower-cased form contains a
dangerous token is rejected with a reason naming a matched token,
regardless of any whitelist prefix — the dangerous scan runs first and is
never overridden. -/
theorem C2_dangerous_token_always_rejected (command : String)
    (h : ∃ d ∈ DANGEROUS_COMMANDS, strContains (asciiLower (strTrim command)) d = true) :
    (validate_command command).safe = false ∧
    ∃ d ∈ DANGEROUS_COMMANDS,
      strContains (asciiLower (strTrim command)) d = true ∧
      (validate_command command).reason = some ("命令包含危险操作: " ++ d) := by
  have hsome : (DANGEROUS_COMMANDS.find?
      (fun dangerous => strContains (asciiLower (strTrim command)) dangerous)).isSome := by
    rw [List.find?_isSome]
    obtain ⟨d, hd, hc⟩ := h
    exact ⟨d, hd, hc⟩
  obtain ⟨d0, hd0⟩ := Option.isSome_iff_exists.mp hsome
  constructor
  · simp only [validate_command, hd0]
  · exact ⟨d0, List.mem_of_find?_eq_some hd0, List.find?_some hd0,
      by simp only [validate_command, hd0]⟩

/-- Witness for claim C2 at `"docker ps; rm -rf /"`: despite the
whitelisted prefix `docker ps`, the command is rejected with a
dangerous-token reason. -/
theorem C2_dangerous_token_always_rejected_witness :
    (validate_command "docker ps; rm -rf /").safe = false ∧
    ∃ d ∈ DANGEROUS_COMMANDS,
      strContains (asciiLower (strTrim "docker ps; rm -rf /")) d = true ∧
      (validate_command "docker ps; rm -rf /").reason = some ("命令包含危险操作: " ++ d) :=
  C2_dangerous_token_always_rejected "docker ps; rm -rf /" ⟨"rm ", by decide, by decide⟩

/-- Claim C3 counterexample: the code has no three-valued verdict — the
low-risk command `docker-compose restart web` receives *exactly the same*
`CommandValidation` value as the safe command `docker ps`
(`{safe := true, reason := none}`), so no verdict distinct from Safe flags
it as mutating. -/
theorem C3_no_distinct_lowrisk_verdict :
    validate_command "docker-compose restart web" = validate_command "docker ps" ∧
    validate_command "docker ps" = { safe := true, reason := none } := by
  constructor <;> decide

/-- Claim C3 as amended: `validate_command` returns a two-field
`{safe, reason}` value.  `docker ps` is accepted; `docker-compose restart
web` is accepted with the identical value (it matches via the low-risk
list, not the read-only list, which is the only trace of its mutating
nature); `sudo reboot` is rejected (dangerous token `reboot`); `banana` is
rejected as not whitelisted. -/
theorem C3_classification_values :
    validate_command "docker ps" = { safe := true, reason := none } ∧
    validate_command "docker-compose restart web" = { safe := true, reason := none } ∧
    READONLY_COMMANDS.any
      (fun readonly =>
        strStartsWith (asciiLower (strTrim "docker-compose restart web")) readonly) = false ∧
    LOWRISK_COMMANDS.any
      (fun lowrisk =>
        strStartsWith (asciiLower (strTrim "docker-compose restart web")) lowrisk) = true ∧
    validate_command "sudo reboot" =
      { safe := false, reason := some "命令包含危险操作: reboot" } ∧
    validate_command "banana" = { safe := false, reason := some "命令未在白名单中" } := by
  refine ⟨by decide, by decide, by decide, by decide, by decide, by decide⟩

/-- Claim C4: on any command the policy rejects, `execute_command` with
validation on short-circuits with the policy error, leaves the client
state untouched, and attempts no network operation whatsoever (empty
trace: no connect, no channel open). -/
theorem C4_rejected_short_circuits (t : Transport) (c : SSHClient)
    (command : String) (timeout : Option Nat)
    (h : (validate_command command).safe = false) :
    execute_command t c command true timeout =
      (.error (.CommandExecution
        ("命令被安全策略阻止: " ++ (validate_command command).reason.getD "")), c, []) := by
  simp [execute_command, h]

/-- Witness for claim C4 at the non-whitelisted command `banana` against a
fully-working transport and a connected client. -/
theorem C4_rejected_short_circuits_witness :
    execute_command tOK cConn "banana" true none =
      (.error (.CommandExecution
        ("命令被安全策略阻止: " ++ (validate_command "banana").reason.getD "")), cConn, []) :=
  C4_rejected_short_circuits tOK cConn "banana" none (by decide)

/-- Claim C5: the claim is contradicted by the code.  `execute_command`
declares its timeout parameter as `_timeout: Option<Duration>` and never
reads it, and `OpsCLIError` has no timeout variant, so no elapsed timeout
can ever surface a timeout error or tear the session down: the whole
outcome (result, state, trace) is identical for every supplied timeout
(first conjunct), and a run with a zero timeout supplied still returns the
fully-collected result and leaves the session connected (remaining
conjuncts). -/
theorem C5_timeout_parameter_ignored :
    (∀ (t : Transport) (c : SSHClient) (command : String)
        (validate_safety : Bool) (t₁ t₂ : Option Nat),
        execute_command t c command validate_safety t₁ =
          execute_command t c command validate_safety t₂) ∧
    (execute_command tOK cConn "docker logs app" true (some 0)).1 =
      .ok { stdout := "out", stderr := "", exit_code := 0,
            command := "docker logs app", execution_time := 0 } ∧
    (execute_command tOK cConn "docker logs app" true (some 0)).2.1 = cConn := by
  exact ⟨fun t c command v t₁ t₂ => rfl, by decide, by decide⟩

/-- Claim C6 counterexample: a policy rejection and a channel-open failure
after a successful connection are reported with the *same* error
constructor, `OpsCLIError.CommandExecution` — they are not distinct error
kinds, contrary to the claim. -/
theorem C6_policy_and_io_failure_same_kind :
    (execute_command tOK cConn "banana" true none).1 =
      .error (.CommandExecution "命令被安全策略阻止: 命令未在白名单中") ∧
    (execute_command tChanFail cConn "docker ps" true none).1 =
      .error (.CommandExecution "创建 channel 失败: boom") ∧
    errCtor (.CommandExecution "命令被安全策略阻止: 命令未在白名单中") =
      errCtor (.CommandExecution "创建 channel 失败: boom") := by
  refine ⟨by decide, by decide, by decide⟩

/-- Claim C6 as amended: the error enum distinguishes connection failure
(`SSHConnection`) from execution-phase failure (`CommandExecution`), and a
policy rejection does carry the specific human-readable reason — but it is
reported with the same `CommandExecution` variant as channel I/O failures,
distinguished only by the message text, and no timeout kind exists. -/
theorem C6_error_kind_distinctions :
    (execute_command tTcpFail cDis "docker ps" true none).1 =
      .error (.SSHConnection "无法连接到 h: refused") ∧
    (execute_command tChanFail cConn "docker ps" true none).1 =
      .error (.CommandExecution "创建 channel 失败: boom") ∧
    (execute_command tOK cConn "banana" true none).1 =
      .error (.CommandExecution ("命令被安全策略阻止: " ++ "命令未在白名单中")) ∧
    errCtor (.SSHConnection "无法连接到 h: refused") = 0 ∧
    errCtor (.CommandExecution "创建 channel 失败: boom") = 1 ∧
    errCtor (.CommandExecution "命令被安全策略阻止: 命令未在白名单中") = 1 := by
  refine ⟨by decide, by decide, by decide, by decide, by decide, by decide⟩

/-- Claim C7: `connect` is idempotent — after a successful `connect`, the
client holds a session, and a second `connect` (under any transport
behavior) succeeds as a no-op: same state, no network operations, so the
connection work of the two calls together is performed exactly once. -/
theorem C7_connect_idempotent (t t₂ : Transport) (c : SSHClient)
    (h : (connect t c).1 = .ok ()) :
    (connect t c).2.1.session = some () ∧
    connect t₂ (connect t c).2.1 = (.ok (), (connect t c).2.1, []) := by
  have hs := connect_ok_session t c h
  refine ⟨hs, connect_connected_noop t₂ _ ?_⟩
  rw [hs]
  rfl

/-- Witness for claim C7: a fresh client connected twice over the
all-success transport. -/
theorem C7_connect_idempotent_witness :
    (connect tOK cDis).2.1.session = some () ∧
    connect tOK (connect tOK cDis).2.1 = (.ok (), (connect tOK cDis).2.1, []) :=
  C7_connect_idempotent tOK tOK cDis (by decide)

/-- Claim C8: `disconnect` always leaves the state `Disconnected`
(`session = none`) for any transport behavior, including a failing
graceful close; on a never-connected client it is a no-op that performs no
network operation (and, being a total function, cannot panic); and it is
idempotent — a second `disconnect` changes nothing and performs no
network operation. -/
theorem C8_disconnect_safe_idempotent (t t₂ : Transport) (c : SSHClient) :
    (disconnect t c).1.session = none ∧
    disconnect t { session := none, host := c.host } =
      ({ session := none, host := c.host }, []) ∧
    disconnect t₂ (disconnect t c).1 = ((disconnect t c).1, []) := by
  refine ⟨?_, ?_, ?_⟩ <;> cases hc : c.session <;> simp [disconnect, hc]

/-- Claim C9: the source parser coincides with the spec's
`parse_inventory` contract on every input (first conjunct), and on the
spec's concrete examples: one full 4-field line yields exactly that
record; a 3-field line yields a record with empty ports; a 2-field line is
dropped; all-blank input yields the empty list.  Both functions are total
Lean functions, so the parser never fails. -/
theorem C9_parse_inventory_correct :
    (∀ raw, parse_container_status raw = parse_inventory_spec raw) ∧
    parse_container_status "abc123\tmy-container\tUp 5 hours\t80/tcp\n" =
      [{ id := "abc123", name := "my-container", status := "Up 5 hours", ports := "80/tcp" }] ∧
    parse_container_status "a\tb\tc" = [{ id := "a", name := "b", status := "c", ports := "" }] ∧
    parse_container_status "abc123\tmy-container\n" = [] ∧
    parse_container_status " \n\t\n  \n" = [] := by
  refine ⟨?_, by decide, by decide, by decide, by decide⟩
  intro raw
  unfold parse_container_status parse_inventory_spec
  rw [filter_filterMap_eq]
  congr 1
  funext line
  by_cases hb : strIsEmpty (strTrim line) <;> simp [hb]

/-- Claim C10: `execute_command` never drops the session.  On a connected
client the returned state is the input state unchanged — whether the call
returns a result or any channel-phase error — so the session handle stays
set. -/
theorem C10_execute_preserves_connected_session (t : Transport) (c : SSHClient)
    (command : String) (validate_safety : Bool) (timeout : Option Nat)
    (h : c.session.isSome = true) :
    (execute_command t c command validate_safety timeout).2.1 = c := by
  obtain ⟨u, hu⟩ := Option.isSome_iff_exists.mp h
  cases hcond : (validate_safety && !(validate_command command).safe) <;>
    simp [execute_command, hcond, hu]

/-- Witness for claim C10: a connected client keeps its session even when
the channel open fails. -/
theorem C10_execute_preserves_connected_session_witness :
    (execute_command tChanFail cConn "docker ps" false none).2.1 = cConn :=
  C10_execute_preserves_connected_session tChanFail cConn "docker ps" false none (by decide)

end OptimaOps
